import Mathlib

/-!
Verification of the AISoc "Microchip" chat application: a shallow embedding of
the two generative chat endpoints (`src/app/api/chat/route.ts` and
`src/app/api/chat/stream/route.ts`), the alternate local-model endpoint and the
chat user interface logic (both in `src/app/page.tsx`), together with theorems
about the behaviour claimed in the specification.

The TypeScript handlers receive loosely typed JSON values, so the embedding
starts with a small model of JSON/JavaScript runtime values and the coercions
the handlers apply (`String(...)`, `?? `, `?.`, truthiness).
-/

/-- A JSON/JavaScript runtime value as it can appear in a parsed request body.
`undefined` models both the absent-field access result and `undefined`. -/
inductive JSVal where
  | null
  | undefined
  | bool (b : Bool)
  | num (n : Int)
  | str (s : String)
  | arr (elems : List JSVal)
  | obj (fields : List (String × JSVal))

mutual

/-- JavaScript `String(v)` coercion. -/
def jsString : JSVal → String
  | JSVal.null => "null"
  | JSVal.undefined => "undefined"
  | JSVal.bool b => cond b "true" "false"
  | JSVal.num n => toString n
  | JSVal.str s => s
  | JSVal.arr xs => jsArrayString xs
  | JSVal.obj _ => "[object Object]"

/-- `Array.prototype.toString`: elements joined with commas, with `null` and
`undefined` elements rendered as the empty string. -/
def jsArrayString : List JSVal → String
  | [] => ""
  | [x] => jsElemString x
  | x :: y :: xs => jsElemString x ++ "," ++ jsArrayString (y :: xs)

/-- How one array element is rendered inside `Array.prototype.toString`. -/
def jsElemString : JSVal → String
  | JSVal.null => ""
  | JSVal.undefined => ""
  | JSVal.bool b => cond b "true" "false"
  | JSVal.num n => toString n
  | JSVal.str s => s
  | JSVal.arr xs => jsArrayString xs
  | JSVal.obj _ => "[object Object]"

end

/-- JavaScript nullish coalescing `a ?? b`. -/
def nullish (a b : JSVal) : JSVal :=
  match a with
  | JSVal.null => b
  | JSVal.undefined => b
  | v => v

/-- Optional-chaining property access `v?.k`: `undefined` on nullish values and
on values that do not carry the field (primitives carry none of the fields the
handlers read). -/
def getField (v : JSVal) (k : String) : JSVal :=
  match v with
  | JSVal.obj fields =>
    match fields.lookup k with
    | some w => w
    | none => JSVal.undefined
  | _ => JSVal.undefined

/-- JavaScript strict equality `v === s` against a string literal. -/
def isStr (v : JSVal) (s : String) : Bool :=
  match v with
  | JSVal.str t => t == s
  | _ => false

/-- JavaScript `String.prototype.trim()`: drop leading and trailing
whitespace. Implemented over the character list so that it evaluates inside
the kernel. -/
def jsTrim (s : String) : String :=
  String.mk (((s.data.dropWhile Char.isWhitespace).reverse.dropWhile
    Char.isWhitespace).reverse)

/-- Truthiness of an optional string (`undefined` and `""` are falsy). -/
def strTruthy : Option String → Bool
  | none => false
  | some s => !(s == "")

/-- Truthiness of an optional number (`undefined` and `0` are falsy). -/
def ratTruthy : Option Rat → Bool
  | none => false
  | some q => !(q == 0)

/-! ### Shared chat data model (`route.ts` / `stream/route.ts`) -/

/-- `type Role = "user" | "assistant"`. -/
inductive Role where
  | user
  | assistant
deriving DecidableEq, Repr

/-- `type Msg = { role: Role; content: string }`. -/
structure Msg where
  role : Role
  content : String
deriving DecidableEq, Repr

/-- Role of a backend content turn (`"user" | "model"`). -/
inductive GRole where
  | user
  | model
deriving DecidableEq, Repr

/-- One backend content turn `{ role, parts: [{ text }] }`; `parts` lists the
text of each part (the handlers always build a single part). -/
structure Content where
  role : GRole
  parts : List String
deriving DecidableEq, Repr

/-- The persona preamble `SYSTEM_PREAMBLE`, identical in both endpoint files. -/
def SYSTEM_PREAMBLE : String :=
  "You are \"Microchip\", the AI assistant for AISoc (Artificial Intelligence Society).\nMicrochip characteristics:\n- Tone: friendly, practical, upbeat; concise by default.\n- Style: clear structure, bullet points when useful, examples when helpful.\n- Behavior: ask one brief clarifying question if the user\x27s intent is ambiguous.\n- Safety: avoid speculation; cite assumptions; do not disclose private keys or internal credentials.\n- Identity: you are part of AISoc; you can say \"we\" for AISoc initiatives.\nFormatting:\n- Use short paragraphs and bullets. Keep code minimal and runnable.\n"

/-- `const MODEL_ID = "gemini-2.0-flash"`. -/
def MODEL_ID : String := "gemini-2.0-flash"

/-- The fixed generation parameters (`generationConfig` in both endpoints).
The fractional values are represented exactly as rationals. -/
structure GenConfig where
  temperature : Rat
  topP : Rat
  topK : Nat
  maxOutputTokens : Nat
deriving DecidableEq, Repr

/-- `generationConfig = { temperature: 0.6, topP: 0.9, topK: 40, maxOutputTokens: 2048 }`. -/
def generationConfig : GenConfig :=
  { temperature := 3 / 5, topP := 9 / 10, topK := 40, maxOutputTokens := 2048 }

/-- Sanitization of one raw history entry (the `.map` body in both endpoints):
`role: m?.role === "user" || m?.role === "assistant" ? m.role : "user"` and
`content: String(m?.content ?? "")`. -/
def sanitizeEntry (m : JSVal) : Msg :=
  let r := getField m "role"
  { role :=
      if isStr r "user" || isStr r "assistant" then
        (if isStr r "user" then Role.user else Role.assistant)
      else Role.user
    content := jsString (nullish (getField m "content") (JSVal.str "")) }

/-- Sanitization of the whole history array: map then
`.filter((m) => m.content.trim().length > 0)`. -/
def sanitizeHistory (entries : List JSVal) : List Msg :=
  (entries.map sanitizeEntry).filter (fun m => decide (0 < (jsTrim m.content).length))

/-- Builds the backend `contents` array the way the handlers do: push the
persona preamble as a first user turn, push one turn per surviving history
entry in order, then push the new prompt as a final user turn. -/
def buildContents (history : List Msg) (prompt : String) : List Content :=
  let contents : List Content := []
  let contents := contents ++ [{ role := GRole.user, parts := [SYSTEM_PREAMBLE] }]
  let contents := history.foldl
    (fun acc m =>
      acc ++ [{ role := if m.role = Role.user then GRole.user else GRole.model
                parts := [m.content] }])
    contents
  contents ++ [{ role := GRole.user, parts := [prompt] }]

/-- How a request can fail before the backend call is reached. -/
inductive PrepareError where
  | missingKey
  | typeError
deriving DecidableEq, Repr

/-- The outbound backend request assembled by either endpoint. -/
structure BackendRequest where
  modelId : String
  config : GenConfig
  contents : List Content
deriving DecidableEq, Repr

/-- Modelled JavaScript runtime TypeError message raised by calling `.map` on a
non-array value; the exact wording is environment specific and no claim
depends on it. -/
def mapTypeErrorMessage : String := "historyUnsafe.map is not a function"

/-- String-coercion of the prompt field: `String(body?.prompt ?? "")`. -/
def promptOf (body : JSVal) : String :=
  jsString (nullish (getField body "prompt") (JSVal.str ""))

/-- The raw history entries when `body?.history ?? []` is an array (the only
case in which the handlers get past `.map` without throwing). -/
def historyList (body : JSVal) : List JSVal :=
  match nullish (getField body "history") (JSVal.arr []) with
  | JSVal.arr xs => xs
  | _ => []

/-- Whether `body?.history ?? []` is an array, so that `.map` does not throw. -/
def historyArrayLike (body : JSVal) : Bool :=
  match nullish (getField body "history") (JSVal.arr []) with
  | JSVal.arr _ => true
  | _ => false

/-- The part of both endpoint handlers that runs before the backend call:
credential check (`!process.env.GOOGLE_API_KEY`, so an empty value also
fails), prompt coercion, history sanitization and content construction.
Identical in `route.ts` and `stream/route.ts`; both handlers below use it. -/
def chatPrepare (env : Option String) (body : JSVal) :
    Except PrepareError BackendRequest :=
  match env with
  | none => Except.error PrepareError.missingKey
  | some k =>
    if k == "" then Except.error PrepareError.missingKey
    else
      let prompt := promptOf body
      match nullish (getField body "history") (JSVal.arr []) with
      | JSVal.arr entries =>
          Except.ok
            { modelId := MODEL_ID
              config := generationConfig
              contents := buildContents (sanitizeHistory entries) prompt }
      | _ => Except.error PrepareError.typeError

/-! ### Primary endpoint response phase (`route.ts`) -/

/-- One element of `parts` in a backend candidate; `text` may be absent. -/
structure ResPart where
  text : Option String
deriving DecidableEq, Repr

/-- The `content` object of a backend candidate; `parts` may be absent. -/
structure ResContent where
  parts : Option (List ResPart)
deriving DecidableEq, Repr

/-- One backend candidate; `content` may be absent. -/
structure Candidate where
  content : Option ResContent
deriving DecidableEq, Repr

/-- The backend `response` object; `candidates` may be absent. -/
structure GenResponse where
  candidates : Option (List Candidate)
deriving DecidableEq, Repr

/-- The result of `model.generateContent`; `response` may be absent. -/
structure GenerateResult where
  response : Option GenResponse
deriving DecidableEq, Repr

/-- The optional chain
`result.response?.candidates?.[0]?.content?.parts?.[0]?.text`. -/
def firstText (r : GenerateResult) : Option String :=
  (((((r.response.bind (fun resp => resp.candidates)).bind
      (fun cs => cs.head?)).bind
      (fun c => c.content)).bind
      (fun cc => cc.parts)).bind
      (fun ps => ps.head?)).bind
      (fun p => p.text)

/-- The reply text: the optional chain above with `?? "..."`. -/
def extractReply (r : GenerateResult) : String :=
  (firstText r).getD "..."

/-- A response of the primary endpoint: `NextResponse.json({ error }, { status })`
or `NextResponse.json({ reply })` (status 200). -/
inductive PrimaryResponse where
  | errorJson (status : Nat) (error : String)
  | replyJson (status : Nat) (reply : String)
deriving DecidableEq, Repr

/-- The primary endpoint `POST` handler of `route.ts`. The outbound backend
call is a parameter: it is consulted only when `chatPrepare` succeeds, and it
may itself fail with an optional message (`err?.message ?? "Server error"`). -/
def primaryPOST (env : Option String) (body : JSVal)
    (backend : BackendRequest → Except (Option String) GenerateResult) :
    PrimaryResponse :=
  match chatPrepare env body with
  | Except.error PrepareError.missingKey =>
      PrimaryResponse.errorJson 500 "Missing GOOGLE_API_KEY"
  | Except.error PrepareError.typeError =>
      PrimaryResponse.errorJson 500 mapTypeErrorMessage
  | Except.ok req =>
    match backend req with
    | Except.error m => PrimaryResponse.errorJson 500 (m.getD "Server error")
    | Except.ok result => PrimaryResponse.replyJson 200 (extractReply result)

/-! ### Streaming endpoint response phase (`stream/route.ts`) -/

/-- One hexadecimal digit, for JSON `\u00XX` escapes of control characters. -/
def hexDigit (n : Nat) : String :=
  if n < 10 then toString n
  else if n = 10 then "a" else if n = 11 then "b" else if n = 12 then "c"
  else if n = 13 then "d" else if n = 14 then "e" else "f"

/-- JSON string escaping of one character, as `JSON.stringify` performs it. -/
def jsonEscapeChar (c : Char) : String :=
  if c = '"' then "\\\""
  else if c = '\\' then "\\\\"
  else if c = '\n' then "\\n"
  else if c = '\r' then "\\r"
  else if c = '\t' then "\\t"
  else if c = Char.ofNat 8 then "\\b"
  else if c = Char.ofNat 12 then "\\f"
  else if c.toNat < 32 then "\\u00" ++ hexDigit (c.toNat / 16) ++ hexDigit (c.toNat % 16)
  else String.singleton c

/-- `JSON.stringify` of a plain string. -/
def jsonQuote (s : String) : String :=
  "\"" ++ String.join (s.toList.map jsonEscapeChar) ++ "\""

/-- The record `send(JSON.stringify({ token: text }))` writes:
`data: \x7b"token":"..."\x7d` followed by a blank line. -/
def dataRecord (t : String) : String :=
  "data: " ++ "\x7b\"token\":" ++ jsonQuote t ++ "\x7d" ++ "\n\n"

/-- The terminal record on successful exhaustion of the backend stream. -/
def doneRecord : String := "event: done\ndata: [DONE]\n\n"

/-- The terminal record emitted when consuming the backend stream throws. -/
def errorRecord (msg : String) : String :=
  "event: error\ndata: " ++ "\x7b\"error\":" ++ jsonQuote msg ++ "\x7d" ++ "\n\n"

/-- The `start(controller)` loop of the streaming endpoint: iterate the backend
fragments in order, enqueue one data record per truthy (non-empty) fragment,
then enqueue the done record — unless iterating throws, in which case one
error record (message `e?.message ?? "stream error"`) ends the stream. The
backend stream is modelled as its fragment texts plus an optional failure
raised after them. -/
def streamRun : List String → Option (Option String) → List String
  | [], none => [doneRecord]
  | [], some e => [errorRecord (e.getD "stream error")]
  | t :: ts, e => (if t == "" then [] else [dataRecord t]) ++ streamRun ts e

/-- A backend streaming session: the fragment texts produced, and an optional
failure thrown during iteration after them. -/
structure BackendStream where
  chunks : List String
  failure : Option (Option String)

/-- A response of the streaming endpoint: a plain-text error response, or an
event-stream body (its emitted records, in order). -/
inductive StreamResponse where
  | plain (status : Nat) (body : String)
  | eventStream (records : List String)
deriving DecidableEq, Repr

/-- The streaming endpoint `POST` handler of `stream/route.ts`. As for the
primary endpoint, the outbound streaming call is a parameter consulted only
after `chatPrepare` succeeds; a failure of the call itself (before the
response starts) becomes a plain 500. -/
def streamPOST (env : Option String) (body : JSVal)
    (backend : BackendRequest → Except (Option String) BackendStream) :
    StreamResponse :=
  match chatPrepare env body with
  | Except.error PrepareError.missingKey => StreamResponse.plain 500 "Missing GOOGLE_API_KEY"
  | Except.error PrepareError.typeError => StreamResponse.plain 500 mapTypeErrorMessage
  | Except.ok req =>
    match backend req with
    | Except.error m => StreamResponse.plain 500 (m.getD "Server error")
    | Except.ok s => StreamResponse.eventStream (streamRun s.chunks s.failure)

/-! ### Alternate local-model endpoint (second handler in `page.tsx` sources) -/

/-- `interface Message { role: "user" | "system"; content: string }` of the
alternate endpoint (roles kept as strings; the handler never inspects them). -/
structure AltMessage where
  role : String
  content : String
deriving DecidableEq, Repr

/-- `interface ChatRequest` of the alternate endpoint. -/
structure AltBody where
  messages : List AltMessage
  system_prompt : Option String
  model : Option String
  temperature : Option Rat

/-- The outbound request the alternate endpoint sends to the local backend. -/
structure AltOutbound where
  url : String
  model : String
  messages : List AltMessage
  stream : Bool
  temperature : Rat
deriving DecidableEq, Repr

/-- The alternate endpoint `POST` handler: prepend a synthetic system message
when `system_prompt` is truthy, and default `model` / `options.temperature`
with `||` (so falsy present values also default). -/
def altPOST (b : AltBody) : AltOutbound :=
  { url := "http://localhost:11434/api/chat"
    model :=
      match b.model with
      | some m => if m == "" then "pirate-bot" else m
      | none => "pirate-bot"
    messages :=
      if strTruthy b.system_prompt then
        { role := "system", content := b.system_prompt.getD "" } :: b.messages
      else b.messages
    stream := true
    temperature :=
      match b.temperature with
      | some q => if q == 0 then 4 / 5 else q
      | none => 4 / 5 }

/-! ### Chat user interface (`page.tsx`) -/

/-- Concatenation of a fragment list, in order. -/
def concatAll : List String → String
  | [] => ""
  | t :: ts => t ++ concatAll ts

/-- The fixed fallback message text appended on any send failure. -/
def fallbackText : String :=
  "Sorry, something went wrong. Please try again in a moment."

/-- What an assistant bubble displays: its content, or the "Thinking..."
placeholder when the content is empty (`props.content || <Thinking...>`). -/
def bubbleLabel (content : String) : String :=
  if content == "" then "Thinking..." else content

/-- The `setMessages` update applied per received token: replace the last
message in place, keeping its role
(`next[next.length - 1] = { ...next[lastIdx], content: assistantText }`).
On an empty array the JavaScript index `-1` write leaves the array contents
unchanged. -/
def setLastContent (msgs : List Msg) (s : String) : List Msg :=
  match msgs.getLast? with
  | none => msgs
  | some m => msgs.set (msgs.length - 1) { m with content := s }

/-- The token-processing loop of `sendStreaming`: for each received token
fragment in order, skip it when falsy (empty), otherwise append it to the
running accumulator and overwrite the last message with the accumulator. -/
def streamTokens (msgs : List Msg) (acc : String) : List String → List Msg × String
  | [] => (msgs, acc)
  | t :: ts =>
    if t == "" then streamTokens msgs acc ts
    else streamTokens (setLastContent msgs (acc ++ t)) (acc ++ t) ts

/-- The outcome of a `fetch`: a network-level rejection, or a response. -/
inductive FetchOutcome (α : Type) where
  | reject
  | response (r : α)

/-- A non-streaming `fetch` response: `ok` status flag and the `reply` field
of its parsed JSON body (absent models a body without that field). -/
structure PlainFetch where
  ok : Bool
  reply : Option String

/-- A streaming `fetch` response: `ok` status flag and, when a body is
present, the token fragments its event-stream lines carry. -/
structure StreamFetch where
  ok : Bool
  tokens : Option (List String)

/-- Whether `sendStreaming` throws for this fetch outcome
(`!res.ok || !res.body`, or the fetch itself rejecting). -/
def streamFetchFails (f : FetchOutcome StreamFetch) : Bool :=
  match f with
  | FetchOutcome.reject => true
  | FetchOutcome.response r => !r.ok || r.tokens.isNone

/-- Whether `sendNonStreaming` throws for this fetch outcome (`!res.ok`, or
the fetch itself rejecting). -/
def plainFetchFails (f : FetchOutcome PlainFetch) : Bool :=
  match f with
  | FetchOutcome.reject => true
  | FetchOutcome.response r => !r.ok

/-- `sendStreaming`: append the empty assistant placeholder before the fetch,
then either throw (second component `true`) on rejection / non-ok / missing
body, or run the token loop. Returns the resulting messages and whether it
threw. -/
def sendStreamingRun (msgs : List Msg) (f : FetchOutcome StreamFetch) :
    List Msg × Bool :=
  let msgs1 := msgs ++ [{ role := Role.assistant, content := "" }]
  match f with
  | FetchOutcome.reject => (msgs1, true)
  | FetchOutcome.response r =>
    if !r.ok then (msgs1, true)
    else
      match r.tokens with
      | none => (msgs1, true)
      | some ts => ((streamTokens msgs1 "" ts).1, false)

/-- `sendNonStreaming`: throw on rejection or non-ok status, otherwise append
one assistant message with `data.reply ?? "..."`. -/
def sendNonStreamingRun (msgs : List Msg) (f : FetchOutcome PlainFetch) :
    List Msg × Bool :=
  match f with
  | FetchOutcome.reject => (msgs, true)
  | FetchOutcome.response r =>
    if !r.ok then (msgs, true)
    else (msgs ++ [{ role := Role.assistant, content := r.reply.getD "..." }], false)

/-- The UI state relevant to submissions. -/
structure UIState where
  messages : List Msg
  input : String
  useStreaming : Bool
  isLoading : Bool
deriving DecidableEq, Repr

/-- `onSend`: no-op when the trimmed input is empty or a request is in
flight; otherwise clear the input, append the user message, run the selected
send with the given fetch outcome, append the fallback assistant message if
the send threw, and finally reset `isLoading`. -/
def onSend (st : UIState) (sf : FetchOutcome StreamFetch)
    (pf : FetchOutcome PlainFetch) : UIState :=
  let prompt := jsTrim st.input
  if prompt == "" || st.isLoading then st
  else
    let msgs1 := st.messages ++ [{ role := Role.user, content := prompt }]
    let r := if st.useStreaming then sendStreamingRun msgs1 sf
             else sendNonStreamingRun msgs1 pf
    let msgs2 := if r.2 then r.1 ++ [{ role := Role.assistant, content := fallbackText }]
                 else r.1
    { st with input := "", messages := msgs2, isLoading := false }

/-! ### Helper lemmas -/

/-- Pushing elements one by one onto an accumulator is map-and-append. -/
theorem foldl_push {α β : Type} (f : α → β) (l : List α) (init : List β) :
    l.foldl (fun acc x => acc ++ [f x]) init = init ++ l.map f := by
  induction l generalizing init with
  | nil => simp
  | cons x xs ih => simp [ih]

/-- The push-based content builder in declarative form: one leading persona
turn, the mapped history, one trailing prompt turn. -/
theorem buildContents_eq (history : List Msg) (prompt : String) :
    buildContents history prompt
      = { role := GRole.user, parts := [SYSTEM_PREAMBLE] }
        :: ((history.map fun m =>
            ({ role := if m.role = Role.user then GRole.user else GRole.model
               parts := [m.content] } : Content))
        ++ [{ role := GRole.user, parts := [prompt] }]) := by
  simp [buildContents, foldl_push]

/-- `concatAll` distributes over list append. -/
theorem concatAll_append (a b : List String) :
    concatAll (a ++ b) = concatAll a ++ concatAll b := by
  induction a with
  | nil => simp [concatAll]
  | cons t ts ih => simp [concatAll, ih, String.append_assoc]

/-! ### Claim theorems -/

/-- C1: for every request to the primary or streaming endpoint that passes the
credential check (both share `chatPrepare`), the backend content array is
exactly one leading user turn carrying the persona instruction, followed by
the surviving sanitized history entries in order (role user mapped to the
backend user role, assistant mapped to the model role), followed by exactly
one final user turn carrying the string-coerced prompt — which is appended
unconditionally, also when the prompt is empty or absent from the body. -/
theorem chat_contents_structure (key : String) (body : JSVal)
    (req : BackendRequest) (h : chatPrepare (some key) body = Except.ok req) :
    req.contents
      = { role := GRole.user, parts := [SYSTEM_PREAMBLE] }
        :: (((sanitizeHistory (historyList body)).map fun m =>
            ({ role := if m.role = Role.user then GRole.user else GRole.model
               parts := [m.content] } : Content))
        ++ [{ role := GRole.user, parts := [promptOf body] }]) := by
  simp only [chatPrepare] at h
  by_cases hk : (key == "") = true
  · rw [if_pos hk] at h
    exact absurd h (by simp)
  · rw [if_neg hk] at h
    cases hh : nullish (getField body "history") (JSVal.arr []) with
    | arr entries =>
      rw [hh] at h
      have h2 : Except.ok
          ({ modelId := MODEL_ID, config := generationConfig,
             contents := buildContents (sanitizeHistory entries) (promptOf body) }
            : BackendRequest)
          = Except.ok req := h
      injection h2 with h3
      have hl : historyList body = entries := by unfold historyList; rw [hh]
      rw [← h3, hl]
      exact buildContents_eq _ _
    | null => rw [hh] at h; exact absurd h (by simp)
    | undefined => rw [hh] at h; exact absurd h (by simp)
    | bool b => rw [hh] at h; exact absurd h (by simp)
    | num n => rw [hh] at h; exact absurd h (by simp)
    | str s => rw [hh] at h; exact absurd h (by simp)
    | obj fs => rw [hh] at h; exact absurd h (by simp)

/-- Witness for C1 at a concrete input: an empty body (prompt absent,
history absent), with a non-empty credential. -/
theorem chat_contents_structure_witness :
    ({ modelId := MODEL_ID, config := generationConfig,
       contents := [{ role := GRole.user, parts := [SYSTEM_PREAMBLE] },
                    { role := GRole.user, parts := [""] }] } : BackendRequest).contents
      = { role := GRole.user, parts := [SYSTEM_PREAMBLE] }
        :: (((sanitizeHistory (historyList (JSVal.obj []))).map fun m =>
            ({ role := if m.role = Role.user then GRole.user else GRole.model
               parts := [m.content] } : Content))
        ++ [{ role := GRole.user, parts := [promptOf (JSVal.obj [])] }]) :=
  chat_contents_structure "k" (JSVal.obj []) _ rfl

/-- Strict string equality characterized. -/
theorem isStr_iff (v : JSVal) (s : String) : isStr v s = true ↔ v = JSVal.str s := by
  cases v <;> simp [isStr]

/-- C2: sanitization forces the role of a history entry to user unless the
role field is exactly the string "assistant"; the content is the JavaScript
string coercion of the content field, defaulting to the empty string when it
is absent; and an entry whose trimmed content is empty is dropped entirely,
contributing no turn to the outgoing backend content array. -/
theorem sanitize_history_spec (m : JSVal) (pre post : List JSVal)
    (prompt : String) :
    (getField m "role" ≠ JSVal.str "assistant" → (sanitizeEntry m).role = Role.user)
    ∧ (getField m "role" = JSVal.str "assistant" → (sanitizeEntry m).role = Role.assistant)
    ∧ (sanitizeEntry m).content = jsString (nullish (getField m "content") (JSVal.str ""))
    ∧ (getField m "content" = JSVal.undefined → (sanitizeEntry m).content = "")
    ∧ (jsTrim (sanitizeEntry m).content = "" →
        sanitizeHistory (pre ++ m :: post) = sanitizeHistory (pre ++ post)
        ∧ buildContents (sanitizeHistory (pre ++ m :: post)) prompt
          = buildContents (sanitizeHistory (pre ++ post)) prompt) := by
  refine ⟨?_, ?_, rfl, ?_, ?_⟩
  · intro hne
    unfold sanitizeEntry
    by_cases hu : isStr (getField m "role") "user" = true
    · simp [hu]
    · have ha : isStr (getField m "role") "assistant" = false := by
        cases hx : isStr (getField m "role") "assistant"
        · rfl
        · exact absurd ((isStr_iff _ _).mp hx) hne
      simp [hu, ha]
  · intro heq
    unfold sanitizeEntry
    have ha : isStr (getField m "role") "assistant" = true := (isStr_iff _ _).mpr heq
    have hu : isStr (getField m "role") "user" = false := by
      cases hx : isStr (getField m "role") "user"
      · rfl
      · have := (isStr_iff _ _).mp hx
        rw [heq] at this
        exact absurd (JSVal.str.inj this) (by decide)
    simp [hu, ha]
  · intro habs
    unfold sanitizeEntry
    rw [habs]
    rfl
  · intro hdrop
    have hfalse : decide (0 < (jsTrim (sanitizeEntry m).content).length) = false := by
      rw [hdrop]; rfl
    have hmain : sanitizeHistory (pre ++ m :: post) = sanitizeHistory (pre ++ post) := by
      unfold sanitizeHistory
      rw [List.map_append, List.map_append, List.map_cons,
        List.filter_append, List.filter_append, List.filter_cons, hfalse]
      simp
    exact ⟨hmain, by rw [hmain]⟩

/-- Witness for C2 at the concrete entry `\x7brole:"user", content:"   "\x7d`
named by the specification: the whitespace-only entry survives sanitization of
role and content, but is dropped and contributes no backend turn. -/
theorem sanitize_history_spec_witness :
    jsTrim (sanitizeEntry (JSVal.obj [("role", JSVal.str "user"),
        ("content", JSVal.str "   ")])).content = ""
    ∧ (sanitizeHistory ([] ++ JSVal.obj [("role", JSVal.str "user"),
          ("content", JSVal.str "   ")] :: []) = sanitizeHistory ([] ++ [])
        ∧ buildContents (sanitizeHistory ([] ++ JSVal.obj [("role", JSVal.str "user"),
            ("content", JSVal.str "   ")] :: [])) "hi"
          = buildContents (sanitizeHistory ([] ++ [])) "hi") :=
  ⟨rfl, (sanitize_history_spec (JSVal.obj [("role", JSVal.str "user"),
      ("content", JSVal.str "   ")]) [] [] "hi").2.2.2.2 rfl⟩

/-- C3: the streaming body emits, in arrival order, exactly one data record
per non-empty backend fragment (empty fragments produce no record), followed
by exactly one terminal record — the done record on successful exhaustion, or
one error record carrying the failure message (or "stream error") on a
mid-stream error — and no record of any kind follows the terminal record. -/
theorem stream_records_spec (chunks : List String) (err : Option (Option String)) :
    streamRun chunks err
      = ((chunks.filter fun t => !(t == "")).map dataRecord)
        ++ [match err with
            | none => doneRecord
            | some e => errorRecord (e.getD "stream error")] := by
  induction chunks with
  | nil => cases err <;> simp [streamRun]
  | cons t ts ih =>
    by_cases ht : (t == "") = true
    · simp [streamRun, ht, ih, List.filter_cons]
    · simp only [streamRun, ht, if_neg, List.filter_cons, Bool.not_eq_true] at ih ⊢
      simp [ht, ih]

/-- C4: when the credential is absent, the primary endpoint answers status 500
with the JSON error body "Missing GOOGLE_API_KEY", the streaming endpoint
answers status 500 with the same plain-text body, and neither endpoint
performs a backend call: the result is the same for every backend function,
because `chatPrepare` already fails. -/
theorem missing_key_responses (body : JSVal)
    (backendOnce : BackendRequest → Except (Option String) GenerateResult)
    (backendStream : BackendRequest → Except (Option String) BackendStream) :
    primaryPOST none body backendOnce
      = PrimaryResponse.errorJson 500 "Missing GOOGLE_API_KEY"
    ∧ streamPOST none body backendStream
      = StreamResponse.plain 500 "Missing GOOGLE_API_KEY"
    ∧ chatPrepare none body = Except.error PrepareError.missingKey :=
  ⟨rfl, rfl, rfl⟩

/-- C5 counterexample: the claim that no malformed request body can cause a
thrown failure before the backend call is false. A body whose `history` field
is the number 5 makes `historyUnsafe.map` throw a TypeError (caught and turned
into a 500 error response), so the backend request is never built. -/
theorem lenient_coercion_counterexample :
    chatPrepare (some "k") (JSVal.obj [("history", JSVal.num 5)])
      = Except.error PrepareError.typeError
    ∧ primaryPOST (some "k") (JSVal.obj [("history", JSVal.num 5)])
        (fun _ => Except.ok { response := none })
      = PrimaryResponse.errorJson 500 mapTypeErrorMessage :=
  ⟨rfl, rfl⟩

/-- C5 amended: with a usable credential, every body whose `history` field is
absent, nullish, or an array is fully coerced — missing fields default, wrong
typed prompt, role and content fields are stringified or defaulted — and the
backend request is built without any thrown failure; a present non-array
`history` value instead throws a TypeError before the backend call (caught
and converted to a 500 error response). -/
theorem lenient_coercion_amended (key : String) (body : JSVal) (hk : ¬ key = "") :
    (historyArrayLike body = true →
      chatPrepare (some key) body
        = Except.ok
            { modelId := MODEL_ID, config := generationConfig,
              contents := buildContents (sanitizeHistory (historyList body))
                (promptOf body) })
    ∧ (historyArrayLike body = false →
        chatPrepare (some key) body = Except.error PrepareError.typeError) := by
  have hk2 : (key == "") = false := by
    cases hx : key == ""
    · rfl
    · exact absurd (by simpa using hx) hk
  constructor
  · intro harr
    simp only [chatPrepare, hk2, Bool.false_eq_true, if_false]
    unfold historyArrayLike at harr
    unfold historyList
    cases hh : nullish (getField body "history") (JSVal.arr []) <;> rw [hh] at harr <;>
      first
      | exact absurd harr (by simp)
      | rfl
  · intro hnotarr
    simp only [chatPrepare, hk2, Bool.false_eq_true, if_false]
    unfold historyArrayLike at hnotarr
    cases hh : nullish (getField body "history") (JSVal.arr []) <;> rw [hh] at hnotarr <;>
      first
      | exact absurd hnotarr (by simp)
      | rfl

/-- Witness for C5 amended: a body carrying only a numeric prompt (history
absent) is coerced without failure and reaches the backend request. -/
theorem lenient_coercion_amended_witness :
    historyArrayLike (JSVal.obj [("prompt", JSVal.num 3)]) = true
    ∧ chatPrepare (some "k") (JSVal.obj [("prompt", JSVal.num 3)])
      = Except.ok
          { modelId := MODEL_ID, config := generationConfig,
            contents := buildContents
              (sanitizeHistory (historyList (JSVal.obj [("prompt", JSVal.num 3)])))
              (promptOf (JSVal.obj [("prompt", JSVal.num 3)])) } :=
  ⟨rfl, (lenient_coercion_amended "k" (JSVal.obj [("prompt", JSVal.num 3)])
    (by decide)).1 rfl⟩

/-- Replacing the last message of a non-empty list in place. -/
theorem setLast_concat (base : List Msg) (m : Msg) (s : String) :
    setLastContent (base ++ [m]) s = base ++ [{ m with content := s }] := by
  unfold setLastContent
  rw [List.getLast?_concat]
  simp [List.set_append]

/-- Running the token loop over non-empty fragments only ever overwrites the
single trailing assistant message, with the full accumulator value. -/
theorem streamTokens_run (ts : List String) (base : List Msg) (acc : String)
    (h : ∀ t ∈ ts, ¬ t = "") :
    streamTokens (base ++ [{ role := Role.assistant, content := acc }]) acc ts
      = (base ++ [{ role := Role.assistant, content := acc ++ concatAll ts }],
         acc ++ concatAll ts) := by
  induction ts generalizing acc with
  | nil => simp [streamTokens, concatAll]
  | cons t ts ih =>
    have ht : (t == "") = false := by
      cases hx : t == ""
      · rfl
      · exact absurd (by simpa using hx) (h t (by simp))
    simp only [streamTokens, ht, Bool.false_eq_true, if_false]
    rw [setLast_concat]
    rw [ih (acc ++ t) (fun x hx => h x (by simp [hx]))]
    simp [concatAll, String.append_assoc]

/-- C6: on a successful backend one-shot response, the primary endpoint
answers status 200 with the reply set to the first candidate first text part
of the response, and with the literal placeholder "..." whenever that text is
unavailable for any reason along the optional chain. -/
theorem reply_extraction_spec (key : String) (body : JSVal)
    (backend : BackendRequest → Except (Option String) GenerateResult)
    (req : BackendRequest) (r : GenerateResult)
    (hprep : chatPrepare (some key) body = Except.ok req)
    (hback : backend req = Except.ok r) :
    (∀ resp c cs cc p ps t,
        r.response = some resp → resp.candidates = some (c :: cs) →
        c.content = some cc → cc.parts = some (p :: ps) → p.text = some t →
        primaryPOST (some key) body backend = PrimaryResponse.replyJson 200 t)
    ∧ (firstText r = none →
        primaryPOST (some key) body backend
          = PrimaryResponse.replyJson 200 "...") := by
  have hmain : primaryPOST (some key) body backend
      = PrimaryResponse.replyJson 200 (extractReply r) := by
    simp only [primaryPOST, hprep, hback]
  constructor
  · intro resp c cs cc p ps t h1 h2 h3 h4 h5
    have hval : extractReply r = t := by
      simp [extractReply, firstText, h1, h2, h3, h4, h5, Option.bind]
    rw [hmain, hval]
  · intro hn
    have hval : extractReply r = "..." := by
      simp [extractReply, hn]
    rw [hmain, hval]

/-- Witness for C6: backend responses carrying the candidate text
"Hello there" produce that reply, and responses with no extractable text
produce the "..." placeholder, on a concrete empty body. -/
theorem reply_extraction_spec_witness :
    primaryPOST (some "k") (JSVal.obj [])
        (fun _ => Except.ok
          { response := some
              { candidates := some [
                  { content := some
                      { parts := some [{ text := some "Hello there" }] } }] } })
      = PrimaryResponse.replyJson 200 "Hello there"
    ∧ primaryPOST (some "k") (JSVal.obj [])
        (fun _ => Except.ok { response := none })
      = PrimaryResponse.replyJson 200 "..." :=
  ⟨(reply_extraction_spec "k" (JSVal.obj []) _ _ _ rfl rfl).1
      _ _ _ _ _ _ _ rfl rfl rfl rfl rfl,
    (reply_extraction_spec "k" (JSVal.obj [])
      (fun _ => Except.ok { response := none }) _ { response := none } rfl rfl).2 rfl⟩

/-- C7: in streaming mode, starting from the empty assistant placeholder as
the last message, processing the received token fragments of one reply in
receipt order passes through the intermediate state in which the last message
holds exactly the concatenation of the fragments received so far (so for
fragments A, B, C the displayed assistant message progresses through A, AB,
ABC), and it ends with the last message holding the whole accumulated reply;
the earlier messages are never touched and no message is ever added, so
exactly one assistant message is updated in place across the whole stream. -/
theorem stream_tokens_progress (base : List Msg) (acc : String)
    (ts1 ts2 : List String) (h : ∀ t ∈ ts1 ++ ts2, ¬ t = "") :
    streamTokens (base ++ [{ role := Role.assistant, content := acc }]) acc (ts1 ++ ts2)
      = streamTokens
          (base ++ [{ role := Role.assistant, content := acc ++ concatAll ts1 }])
          (acc ++ concatAll ts1) ts2
    ∧ streamTokens (base ++ [{ role := Role.assistant, content := acc }]) acc (ts1 ++ ts2)
      = (base ++ [{ role := Role.assistant, content := acc ++ concatAll (ts1 ++ ts2) }],
         acc ++ concatAll (ts1 ++ ts2)) := by
  have h1 : ∀ t ∈ ts1, ¬ t = "" := fun t ht => h t (by simp [ht])
  have h2 : ∀ t ∈ ts2, ¬ t = "" := fun t ht => h t (by simp [ht])
  constructor
  · rw [streamTokens_run (ts1 ++ ts2) base acc h,
      streamTokens_run ts2 base (acc ++ concatAll ts1) h2,
      concatAll_append, String.append_assoc]
  · exact streamTokens_run (ts1 ++ ts2) base acc h

/-- Witness for C7 at the fragments A, B, C of the specification, split after
the first fragment: the displayed assistant message passes through "A" and
ends at "ABC", with no other message touched. -/
theorem stream_tokens_progress_witness :
    streamTokens ([] ++ [{ role := Role.assistant, content := "" }]) "" (["A"] ++ ["B", "C"])
      = streamTokens
          ([] ++ [{ role := Role.assistant, content := "" ++ concatAll ["A"] }])
          ("" ++ concatAll ["A"]) ["B", "C"]
    ∧ streamTokens ([] ++ [{ role := Role.assistant, content := "" }]) "" (["A"] ++ ["B", "C"])
      = ([] ++ [{ role := Role.assistant, content := "" ++ concatAll (["A"] ++ ["B", "C"]) }],
         "" ++ concatAll (["A"] ++ ["B", "C"])) :=
  stream_tokens_progress [] "" ["A"] ["B", "C"] (by decide)

/-- C8: for every submission whose endpoint call rejects or fails, the
interface appends exactly one assistant message carrying the fixed fallback
text as the final message, and the loading flag is false afterwards, in both
streaming and non-streaming mode (in streaming mode the empty placeholder
appended before the fetch also remains, carrying different text). -/
theorem send_failure_fallback (st : UIState) (sf : FetchOutcome StreamFetch)
    (pf : FetchOutcome PlainFetch)
    (hp : ¬ jsTrim st.input = "") (hl : st.isLoading = false)
    (hf : (if st.useStreaming then streamFetchFails sf else plainFetchFails pf) = true) :
    (onSend st sf pf).isLoading = false
    ∧ (onSend st sf pf).messages
      = st.messages ++ [{ role := Role.user, content := jsTrim st.input }]
        ++ (if st.useStreaming then [{ role := Role.assistant, content := "" }] else [])
        ++ [{ role := Role.assistant, content := fallbackText }] := by
  have hpe : (jsTrim st.input == "") = false := by
    cases hx : jsTrim st.input == ""
    · rfl
    · exact absurd (by simpa using hx) hp
  cases hs : st.useStreaming
  · rw [hs] at hf
    simp only [Bool.false_eq_true, if_false] at hf
    cases pf with
    | reject =>
      simp [onSend, hpe, hl, hs, sendNonStreamingRun, List.append_assoc]
    | response r =>
      rcases r with ⟨ok, reply⟩
      cases ok
      · simp [onSend, hpe, hl, hs, sendNonStreamingRun, List.append_assoc]
      · simp [plainFetchFails] at hf
  · rw [hs] at hf
    simp only [if_true] at hf
    cases sf with
    | reject =>
      simp [onSend, hpe, hl, hs, sendStreamingRun, List.append_assoc]
    | response r =>
      rcases r with ⟨ok, tokens⟩
      cases ok
      · simp [onSend, hpe, hl, hs, sendStreamingRun, List.append_assoc]
      · cases tokens with
        | none => simp [onSend, hpe, hl, hs, sendStreamingRun, List.append_assoc]
        | some ts => simp [streamFetchFails] at hf

/-- Witness for C8: a concrete streaming-mode submission whose fetch rejects
appends the fallback message and leaves the loading flag false. -/
theorem send_failure_fallback_witness :
    (onSend { messages := [], input := " hi ", useStreaming := true, isLoading := false }
        FetchOutcome.reject FetchOutcome.reject).isLoading = false
    ∧ (onSend { messages := [], input := " hi ", useStreaming := true, isLoading := false }
        FetchOutcome.reject FetchOutcome.reject).messages
      = [] ++ [{ role := Role.user, content := jsTrim " hi " }]
        ++ (if ({ messages := [], input := " hi ", useStreaming := true,
                  isLoading := false } : UIState).useStreaming
            then [{ role := Role.assistant, content := "" }] else [])
        ++ [{ role := Role.assistant, content := fallbackText }] :=
  send_failure_fallback _ _ _ (by decide) rfl rfl

/-- C9 counterexample: the claim that a present `system_prompt` is always
prepended is false at a request whose `system_prompt` is present but empty —
the handler tests truthiness, so the empty string is not prepended and the
messages go out unchanged. -/
theorem alt_endpoint_counterexample :
    (altPOST { messages := [{ role := "user", content := "hi" }],
               system_prompt := some "", model := none, temperature := none }).messages
      = [{ role := "user", content := "hi" }]
    ∧ ¬ (altPOST { messages := [{ role := "user", content := "hi" }],
                   system_prompt := some "", model := none, temperature := none }).messages
        = { role := "system", content := "" }
          :: [{ role := "user", content := "hi" }] :=
  ⟨rfl, by decide⟩

/-- C9 amended: the alternate endpoint targets the fixed local address with
`stream: true`; a present and non-empty (truthy) `system_prompt` is prepended
as a synthetic system message while an absent or empty one leaves the
messages unchanged; `model` defaults to "pirate-bot" when absent and
`options.temperature` defaults to 0.8 when absent. -/
theorem alt_endpoint_amended (b : AltBody) :
    (altPOST b).url = "http://localhost:11434/api/chat"
    ∧ (altPOST b).stream = true
    ∧ (strTruthy b.system_prompt = true →
        (altPOST b).messages
          = { role := "system", content := b.system_prompt.getD "" } :: b.messages)
    ∧ (strTruthy b.system_prompt = false → (altPOST b).messages = b.messages)
    ∧ (b.model = none → (altPOST b).model = "pirate-bot")
    ∧ (b.temperature = none → (altPOST b).temperature = 4 / 5) := by
  refine ⟨rfl, rfl, ?_, ?_, ?_, ?_⟩
  · intro h; simp [altPOST, h]
  · intro h; simp [altPOST, h]
  · intro h; simp [altPOST, h]
  · intro h; simp [altPOST, h]

/-- Witness for C9 amended: a request with a non-empty `system_prompt` and
absent `model` and `temperature` gets the synthetic system message, the
default model name and the default temperature. -/
theorem alt_endpoint_amended_witness :
    (altPOST { messages := [{ role := "user", content := "hi" }],
               system_prompt := some "be bold", model := none, temperature := none }).url
      = "http://localhost:11434/api/chat"
    ∧ (altPOST { messages := [{ role := "user", content := "hi" }],
                 system_prompt := some "be bold", model := none, temperature := none }).stream = true
    ∧ (altPOST { messages := [{ role := "user", content := "hi" }],
                 system_prompt := some "be bold", model := none, temperature := none }).messages
      = { role := "system", content := "be bold" }
        :: [{ role := "user", content := "hi" }]
    ∧ (altPOST { messages := [{ role := "user", content := "hi" }],
                 system_prompt := some "be bold", model := none, temperature := none }).model
      = "pirate-bot"
    ∧ (altPOST { messages := [{ role := "user", content := "hi" }],
                 system_prompt := some "be bold", model := none, temperature := none }).temperature
      = 4 / 5 := by
  have h := alt_endpoint_amended
    { messages := [{ role := "user", content := "hi" }],
      system_prompt := some "be bold", model := none, temperature := none }
  exact ⟨h.1, h.2.1, h.2.2.1 rfl, h.2.2.2.2.1 rfl, h.2.2.2.2.2 rfl⟩

/-- C10: in streaming mode, when the stream request fails with a non-success
status or a missing body (or rejects outright), the empty-content assistant
placeholder appended before the fetch is never removed: the submission leaves
the messages array with the new user message followed by two new assistant
entries — the empty placeholder (displayed as "Thinking...") immediately
followed by the fixed fallback message. -/
theorem stream_failure_placeholder (st : UIState) (sf : FetchOutcome StreamFetch)
    (pf : FetchOutcome PlainFetch)
    (hstream : st.useStreaming = true)
    (hp : ¬ jsTrim st.input = "") (hl : st.isLoading = false)
    (hf : streamFetchFails sf = true) :
    (onSend st sf pf).messages
      = st.messages
        ++ [{ role := Role.user, content := jsTrim st.input },
            { role := Role.assistant, content := "" },
            { role := Role.assistant, content := fallbackText }]
    ∧ bubbleLabel "" = "Thinking..." := by
  have hpe : (jsTrim st.input == "") = false := by
    cases hx : jsTrim st.input == ""
    · rfl
    · exact absurd (by simpa using hx) hp
  refine ⟨?_, rfl⟩
  cases sf with
  | reject =>
    simp [onSend, hpe, hl, hstream, sendStreamingRun, List.append_assoc]
  | response r =>
    rcases r with ⟨ok, tokens⟩
    cases ok
    · simp [onSend, hpe, hl, hstream, sendStreamingRun, List.append_assoc]
    · cases tokens with
      | none => simp [onSend, hpe, hl, hstream, sendStreamingRun, List.append_assoc]
      | some ts => simp [streamFetchFails] at hf

/-- Witness for C10: a concrete streaming submission whose fetch answers a
non-success status keeps the placeholder and appends the fallback after it. -/
theorem stream_failure_placeholder_witness :
    (onSend { messages := [{ role := Role.assistant, content := "g" }], input := "x",
              useStreaming := true, isLoading := false }
        (FetchOutcome.response { ok := false, tokens := none })
        FetchOutcome.reject).messages
      = [{ role := Role.assistant, content := "g" }]
        ++ [{ role := Role.user, content := jsTrim "x" },
            { role := Role.assistant, content := "" },
            { role := Role.assistant, content := fallbackText }]
    ∧ bubbleLabel "" = "Thinking..." :=
  stream_failure_placeholder _ _ _ rfl (by decide) rfl rfl
